import Mathlib

/-!
Verification development for the h5py build-configuration layer
(`setup_configure.py` and `setup_build.py`).

The Python modules implement a custom distutils `configure` command that
merges build settings from five priority tiers (current command-line
options, cached command-line options, current environment variables,
cached environment variables, autodetection), persists them in a pickle
file, tracks a `rebuild` flag, and a `build_ext` replacement that forces
Cython recompilation while the flag is set.

This file gives a shallow embedding of that code.  Pure helpers are
translated directly; the pickle file is modelled as an explicit
`Settings` value threaded through the operations; all filesystem,
pkg-config, ldconfig, and shared-library probes performed by the
autodetection functions are modelled as fields of a `World` record, so
that each autodetection function is a pure function of the world it runs
in.  Exceptions are modelled with `Except String`.
-/

deriving instance DecidableEq for Except

namespace H5py

/-- Python truthiness of an optional string environment/option value:
`None` and the empty string are falsy, any other string truthy. -/
def pyTruthyStr : Option String → Bool
  | none => false
  | some s => s ≠ ""

/-- Strip leading and trailing whitespace characters, as Python's `int`
does before parsing. -/
def stripWs (l : List Char) : List Char :=
  ((l.dropWhile Char.isWhitespace).reverse.dropWhile Char.isWhitespace).reverse

/-- Digit-sequence continuation accepted by Python's `int`: digits with
single underscores allowed strictly between digits. -/
def pyDigitsRest : List Char → Bool
  | [] => true
  | '_' :: [] => false
  | '_' :: c :: cs => c.isDigit && pyDigitsRest cs
  | c :: cs => c.isDigit && pyDigitsRest cs

/-- A nonempty digit sequence accepted by Python's `int` (underscores
allowed between digits, not leading or trailing or doubled). -/
def pyDigits : List Char → Bool
  | [] => false
  | c :: cs => c.isDigit && pyDigitsRest cs

/-- Numeric value of a digit sequence, ignoring underscores. -/
def digitsVal (l : List Char) : Nat :=
  l.foldl (fun acc c => if c = '_' then acc else acc * 10 + (c.toNat - '0'.toNat)) 0

/-- Model of Python's `int(s)` on a decimal string: optional surrounding
whitespace, optional single sign, then a digit sequence (with the
underscore rule).  Returns `none` where `int` raises `ValueError`.
(Non-ASCII digit forms accepted by CPython are not modelled.) -/
def pyInt (s : String) : Option Int :=
  let l := stripWs s.toList
  match l with
  | '+' :: rest => if pyDigits rest then some (Int.ofNat (digitsVal rest)) else none
  | '-' :: rest => if pyDigits rest then some (-(Int.ofNat (digitsVal rest))) else none
  | _ => if pyDigits l then some (Int.ofNat (digitsVal l)) else none

/-- Left-to-right evaluation of `tuple(int(x) for x in parts)`: `none` as
soon as one component fails to parse. -/
def tupleOfInts : List String → Option (List Int)
  | [] => some []
  | x :: xs =>
    match pyInt x, tupleOfInts xs with
    | some v, some vs => some (v :: vs)
    | _, _ => none

/-- `validate_version` from `setup_configure.py`: split on `'.'`, parse
every component with `int`, and require exactly three components;
otherwise raise `ValueError`. -/
def validate_version (s : String) : Except String Unit :=
  match tupleOfInts (s.splitOn ".") with
  | some tpl =>
    if tpl.length ≠ 3 then Except.error "HDF5 version string must be in X.Y.Z format"
    else Except.ok ()
  | none => Except.error "HDF5 version string must be in X.Y.Z format"

/-- `hdf5_names_to_try` from `setup_configure.py`: pkg-config package
names to probe, depending on the mpi option value. -/
def hdf5_names_to_try (whichmpi : Option String) : List String :=
  if whichmpi = some "mpich" then ["hdf5-mpich", "hdf5"]
  else if pyTruthyStr whichmpi then ["hdf5-openmpi", "hdf5"]
  else ["hdf5-serial", "hdf5"]

/-- String prefix test on the underlying character list (the model
avoids the byte-position-based core implementations, which do not reduce
inside the kernel). -/
def strStartsWith (s p : String) : Bool :=
  p.toList.isPrefixOf s.toList

/-- String suffix test on the underlying character list. -/
def strEndsWith (s p : String) : Bool :=
  p.toList.isSuffixOf s.toList

/-- Drop the last `n` characters. -/
def strDropRight (s : String) (n : Nat) : String :=
  ⟨s.toList.take (s.toList.length - n)⟩

/-- Keep the last `n` characters. -/
def strTakeRight (s : String) (n : Nat) : String :=
  ⟨s.toList.drop (s.toList.length - n)⟩

/-- Replace every occurrence of the character `c₁` by `c₂` (Python's
`str.replace` with a one-character pattern). -/
def strReplaceChar (c₁ c₂ : Char) (s : String) : String :=
  ⟨s.toList.map (fun c => if c = c₁ then c₂ else c)⟩

/-- Total lexicographic comparison of character lists. -/
def charListLe : List Char → List Char → Bool
  | [], _ => true
  | _ :: _, [] => false
  | a :: as, b :: bs => if a = b then charListLe as bs else decide (a < b)

/-- Total lexicographic comparison of strings. -/
def strLe (a b : String) : Bool :=
  charListLe a.toList b.toList

/-- Insert a string into a sorted duplicate-free list, keeping it sorted
and duplicate-free.  This is the model's canonical representation of a
Python `set` of strings (Python leaves set iteration order
unspecified). -/
def pyInsert (x : String) : List String → List String
  | [] => [x]
  | y :: ys =>
    if x = y then y :: ys
    else if strLe x y then x :: y :: ys
    else y :: pyInsert x ys

/-- The canonical set built from a list of strings. -/
def pySet (l : List String) : List String :=
  l.foldl (fun acc x => pyInsert x acc) []

/-- Union of a canonical set with further elements. -/
def pyUnion (a b : List String) : List String :=
  b.foldl (fun acc x => pyInsert x acc) a

/-- Model of `os.path.join a b` for the uses in this code: an absolute
second component replaces the first, otherwise the components are joined
with a single separator. -/
def pyJoin (a b : String) : String :=
  if strStartsWith b "/" then b
  else if strEndsWith a "/" then a ++ b
  else if a = "" then b
  else a ++ "/" ++ b

/-- Substring test (Python's `needle in hay`). -/
def containsSub (hay needle : String) : Bool :=
  hay.toList.tails.any (fun t => needle.toList.isPrefixOf t)

/-- The settings dictionary persisted in `h5config.pkl`.  The code only
ever stores the twelve `cmd_*`/`env_*` string keys and the boolean
`rebuild` key; an absent key is modelled as `none`. -/
structure Settings where
  cmd_hdf5 : Option String := none
  env_hdf5 : Option String := none
  cmd_hdf5_libdir : Option String := none
  env_hdf5_libdir : Option String := none
  cmd_hdf5_libname : Option String := none
  env_hdf5_libname : Option String := none
  cmd_hdf5_includedir : Option String := none
  env_hdf5_includedir : Option String := none
  cmd_hdf5_version : Option String := none
  env_hdf5_version : Option String := none
  cmd_mpi : Option String := none
  env_mpi : Option String := none
  rebuild : Option Bool := none
  deriving DecidableEq, Repr

/-- The empty dictionary (`{}`), i.e. a missing or unreadable pickle. -/
def Settings.empty : Settings := {}

/-- Python truthiness of a present-or-absent string dict value. -/
def pyTruthyVal : Option String → Bool
  | none => false
  | some s => s ≠ ""

/-- `any(dct.values())`: some stored value is truthy (a non-empty string,
or the boolean `True` for the `rebuild` key). -/
def Settings.anyTruthy (s : Settings) : Bool :=
  pyTruthyVal s.cmd_hdf5 || pyTruthyVal s.env_hdf5 ||
  pyTruthyVal s.cmd_hdf5_libdir || pyTruthyVal s.env_hdf5_libdir ||
  pyTruthyVal s.cmd_hdf5_libname || pyTruthyVal s.env_hdf5_libname ||
  pyTruthyVal s.cmd_hdf5_includedir || pyTruthyVal s.env_hdf5_includedir ||
  pyTruthyVal s.cmd_hdf5_version || pyTruthyVal s.env_hdf5_version ||
  pyTruthyVal s.cmd_mpi || pyTruthyVal s.env_mpi ||
  s.rebuild.getD false

/-- Current command-line options of the `configure` command, as left by
`initialize_options`/`finalize_options` (unspecified options are `None`;
the `reset` and `fallback` flags are boolean switches). -/
structure CmdOptions where
  hdf5 : Option String := none
  hdf5_libdir : Option String := none
  hdf5_libname : Option String := none
  hdf5_includedir : Option String := none
  hdf5_version : Option String := none
  mpi : Option String := none
  reset : Bool := false
  fallback : Bool := false
  deriving DecidableEq, Repr

/-- The process environment variables read by `EnvironmentOptions`. -/
structure EnvVars where
  HDF5_DIR : Option String := none
  HDF5_VERSION : Option String := none
  HDF5_LIB : Option String := none
  HDF5_LIBNAME : Option String := none
  HDF5_INCLUDE : Option String := none
  HDF5_MPI : Option String := none
  HDF5_FALLBACK : Option String := none
  deriving DecidableEq, Repr

/-- The `EnvironmentOptions` convenience object. -/
structure EnvironmentOptions where
  hdf5 : Option String := none
  hdf5_version : Option String := none
  hdf5_libdir : Option String := none
  hdf5_libname : Option String := none
  hdf5_includedir : Option String := none
  mpi : Option String := none
  fallback : Bool := false
  deriving DecidableEq, Repr

/-- Field assignments performed by `EnvironmentOptions.__init__`. -/
def mkEnvOpts (e : EnvVars) : EnvironmentOptions :=
  { hdf5 := e.HDF5_DIR
    hdf5_version := e.HDF5_VERSION
    hdf5_libdir := e.HDF5_LIB
    hdf5_libname := e.HDF5_LIBNAME
    hdf5_includedir := e.HDF5_INCLUDE
    mpi := e.HDF5_MPI
    fallback := pyTruthyStr e.HDF5_FALLBACK }

/-- `EnvironmentOptions.__init__`: read the environment variables and
validate `HDF5_VERSION` when it is set (propagating `ValueError`). -/
def envOptionsInit (e : EnvVars) : Except String EnvironmentOptions :=
  match e.HDF5_VERSION with
  | some v =>
    match validate_version v with
    | Except.error m => Except.error m
    | Except.ok _ => Except.ok (mkEnvOpts e)
  | none => Except.ok (mkEnvOpts e)

/-- `configure.finalize_options`: validate the `--hdf5-version` option
when it was given. -/
def finalize_options (cmd : CmdOptions) : Except String Unit :=
  match cmd.hdf5_version with
  | some v => validate_version v
  | none => Except.ok ()

/-- `if value is not None: dct[key] = value`: a dict entry updated only
when a value was actually specified this round. -/
def updateIf (v old : Option String) : Option String :=
  match v with
  | some x => some x
  | none => old

/-- Step 1 of `configure.run`: overlay the values supplied this round
(command-line options and environment variables) over the settings dict
`old`; keys not supplied this round (value `None`) are left unchanged,
and the `rebuild` entry is not touched here. -/
def overlaySettings (old : Settings) (cmd : CmdOptions) (env : EnvironmentOptions) : Settings :=
  { old with
    cmd_hdf5 := updateIf cmd.hdf5 old.cmd_hdf5
    env_hdf5 := updateIf env.hdf5 old.env_hdf5
    cmd_hdf5_libdir := updateIf cmd.hdf5_libdir old.cmd_hdf5_libdir
    env_hdf5_libdir := updateIf env.hdf5_libdir old.env_hdf5_libdir
    cmd_hdf5_libname := updateIf cmd.hdf5_libname old.cmd_hdf5_libname
    env_hdf5_libname := updateIf env.hdf5_libname old.env_hdf5_libname
    cmd_hdf5_includedir := updateIf cmd.hdf5_includedir old.cmd_hdf5_includedir
    env_hdf5_includedir := updateIf env.hdf5_includedir old.env_hdf5_includedir
    cmd_hdf5_version := updateIf cmd.hdf5_version old.cmd_hdf5_version
    env_hdf5_version := updateIf env.hdf5_version old.env_hdf5_version
    cmd_mpi := updateIf cmd.mpi old.cmd_mpi
    env_mpi := updateIf env.mpi old.env_mpi }

/-- `oldsettings` in `configure.run`: the merge baseline, which is the
empty dict under `--reset` and the cached pickle contents otherwise. -/
def oldBase (cmd : CmdOptions) (cached : Settings) : Settings :=
  if cmd.reset then Settings.empty else cached

/-- Step 1 of `configure.run` in full: compute the updated settings dict
that is saved back to the pickle file, together with the
`rebuild_required` flag.  `cached` is the dict loaded from the pickle
file; with `--reset` the merge baseline is the empty dict, and the
corner case forces a rebuild when the previously persisted dict held at
least one truthy value. -/
def mergeStep (cmd : CmdOptions) (env : EnvironmentOptions) (cached : Settings) :
    Settings × Bool :=
  let oldsettings := oldBase cmd cached
  let dct := overlaySettings oldsettings cmd env
  let rebuild0 := dct.rebuild.getD false || decide (dct ≠ oldsettings)
  let rr := if cmd.reset && cached.anyTruthy then true else rebuild0
  ({ dct with rebuild := some rr }, rr)

/-- Step 2 of `configure.run` for one setting: the three successive
`if self.x is None` assignments, realising the priority order current
command line > cached command line > current environment > cached
environment. -/
def resolveSetting (cur old_cmd env_cur old_env : Option String) : Option String :=
  let v := match cur with
    | some x => some x
    | none => old_cmd
  let v2 := match v with
    | some x => some x
    | none => env_cur
  match v2 with
  | some x => some x
  | none => old_env

/-- The six public config attributes after step 2 of `configure.run`,
before autodetection. -/
structure Resolved where
  hdf5 : Option String
  hdf5_libdir : Option String
  hdf5_libname : Option String
  hdf5_includedir : Option String
  hdf5_version : Option String
  mpi : Option String
  deriving DecidableEq, Repr

/-- Step 2 of `configure.run` applied to all six settings.  `old` is the
same `oldsettings` dict used in step 1 (empty under `--reset`). -/
def resolveAll (cmd : CmdOptions) (env : EnvironmentOptions) (old : Settings) : Resolved :=
  { hdf5 := resolveSetting cmd.hdf5 old.cmd_hdf5 env.hdf5 old.env_hdf5
    hdf5_libdir := resolveSetting cmd.hdf5_libdir old.cmd_hdf5_libdir env.hdf5_libdir old.env_hdf5_libdir
    hdf5_libname := resolveSetting cmd.hdf5_libname old.cmd_hdf5_libname env.hdf5_libname old.env_hdf5_libname
    hdf5_includedir := resolveSetting cmd.hdf5_includedir old.cmd_hdf5_includedir env.hdf5_includedir old.env_hdf5_includedir
    hdf5_version := resolveSetting cmd.hdf5_version old.cmd_hdf5_version env.hdf5_version old.env_hdf5_version
    mpi := resolveSetting cmd.mpi old.cmd_mpi env.mpi old.env_mpi }

/-- The ambient system state the autodetection functions probe: path
resolution, directory contents, pkg-config metadata, the parsed output
of the ldconfig probe, and the version reported by a loaded shared
library.  Each field is the observable outcome of one kind of probe. -/
structure World where
  /-- `sys.platform` -/
  platform : String
  /-- `sys.implementation._multiarch`, or `""` when absent -/
  multiarch : String
  /-- whether `import pkgconfig` succeeded (negation of `NOPKGCONFIG`) -/
  pkgconfig_available : Bool
  /-- `os.path.realpath` -/
  realpath : String → String
  /-- `os.path.abspath` -/
  abspath : String → String
  /-- `os.path.isdir` -/
  isdir : String → Bool
  /-- `os.listdir`; `none` models a raised exception -/
  listdir : String → Option (List String)
  /-- `os.walk` (dirpath, dirs, files triples) -/
  walk : String → List (String × List String × List String)
  /-- `os.walk` with `followlinks=True` -/
  walkFollowLinks : String → List (String × List String × List String)
  /-- `pkgconfig.exists` -/
  pkg_exists : String → Bool
  /-- `pkgconfig.parse(pkg)["library_dirs"]` -/
  pkg_library_dirs : String → List String
  /-- `pkgconfig.parse(pkg)["libraries"]` -/
  pkg_libraries : String → List String
  /-- `pkgconfig.parse(pkg)["include_dirs"]` -/
  pkg_include_dirs : String → List String
  /-- `pkgconfig.parse(pkg)["define_macros"]` -/
  pkg_define_macros : String → List (String × Option String)
  /-- outcome of the whereis/ldconfig subprocess probe: the set of
  directories of lines mentioning `libhdf5` (with empty dirnames already
  dropped); an error models any failure of that block, which leaves
  `libdirs` unbound and so raises out of `autodetect_libdirs` -/
  ldconfig_dirs : Except String (List String)
  /-- `H5get_libversion` of the shared library at a path, via ctypes;
  `none` models a load failure -/
  lib_version : String → Option (Nat × Nat × Nat)
  /-- `mpi4py.get_include()`; `none` models `import mpi4py` failing -/
  mpi4py_include : Option String
  /-- `numpy.get_include()`; `none` models `import numpy` failing -/
  numpy_include : Option String

/-- `autodetect_libdirs` from `setup_configure.py`: an explicit library
directory wins, else the `lib` subdirectory of an explicit install
directory, else the ldconfig probe (with `fallback`) or pkg-config /
built-in defaults; finally every directory is passed through
`os.path.realpath`. -/
def autodetect_libdirs (w : World) (hdf5_dir hdf5_libdir mpi : Option String)
    (fallback : Bool) : Except String (List String) :=
  let raw : Except String (List String) :=
    match hdf5_libdir with
    | some d => Except.ok [d]
    | none =>
      match hdf5_dir with
      | some dir => Except.ok [pyJoin dir "lib"]
      | none =>
        if fallback then
          w.ldconfig_dirs
        else
          match (hdf5_names_to_try mpi).find? w.pkg_exists with
          | some pkg => Except.ok (w.pkg_library_dirs pkg)
          | none => Except.ok ["/usr/local/lib", "/opt/local/lib"]
  raw.map (fun dirs => pySet (dirs.map w.realpath))

/-- The `fallback_libname` helper inside `autodetect_libname`. -/
def fallback_libname (platform : String) (mpi : Option String) : String :=
  let libname := strReplaceChar '-' '_' ((hdf5_names_to_try mpi).headD "")
  if ¬ strStartsWith platform "win" then libname else "h5py_" ++ libname

/-- The last entry of `pkgconfig.parse(pkg)["libraries"]` containing
`"hdf5"` (the Python loop keeps overwriting the name). -/
def lastHdf5Name (names : List String) : Option String :=
  (names.filter (fun n => containsSub n "hdf5")).getLast?

/-- `autodetect_libname` from `setup_configure.py`.  Returns the list
`[name, name ++ "_hl"]` together with the pieces of the compiled
regular expression `lib<name><ext>` (library name and platform
extension).  When pkg-config finds a package but none of its library
names contains `"hdf5"`, the Python code concatenates `None` with a
string and raises `TypeError`. -/
def autodetect_libname (w : World) (hdf5_libname mpi : Option String)
    (fallback : Bool) : Except String (List String × String × String) :=
  let ext := if strStartsWith w.platform "darwin" then ".dylib"
    else if strStartsWith w.platform "win" then ".dll"
    else ".so"
  let nameResult : Except String String :=
    match hdf5_libname with
    | some n => Except.ok n
    | none =>
      if fallback then Except.ok (fallback_libname w.platform mpi)
      else
        match (hdf5_names_to_try mpi).find? w.pkg_exists with
        | some pkg =>
          match lastHdf5Name (w.pkg_libraries pkg) with
          | some n => Except.ok n
          | none => Except.error "TypeError: unsupported operand type for NoneType"
        | none => Except.ok (fallback_libname w.platform mpi)
  nameResult.map (fun n => ([n, n ++ "_hl"], n, ext))

/-- Whether a file name matches `re.match(r"lib" ++ name ++ ext, x)`:
the literal prefix `lib<name>`, then the extension pattern whose first
character is a regular-expression dot (matching any character) followed
by the remaining literal characters; a longer tail is allowed since
`match` only anchors at the start.  The library name is treated as a
literal string. -/
def matchesLibName (name ext x : String) : Bool :=
  let pre := "lib" ++ name
  strStartsWith x pre &&
    (match x.toList.drop pre.toList.length with
     | _ :: r => (ext.toList.drop 1).isPrefixOf r
     | [] => false)

/-- The first candidate after `candidates.sort(key=len)`: the earliest
listed name of minimal length (Python's sort is stable). -/
def shortestCandidate (c : String) (cs : List String) : String :=
  cs.foldl (fun best x => if x.length < best.length then x else best) c

/-- The `librarypath` loop of `autodetect_version`: scan the candidate
directories, skip ones whose `os.listdir` raises, and stop at the first
directory containing a matching library file.  `none` means the loop
finished without `break`, leaving `librarypath` unbound. -/
def findLibraryPath (w : World) (name ext : String) : List String → Option String
  | [] => none
  | d :: ds =>
    match w.listdir d with
    | none => findLibraryPath w name ext ds
    | some files =>
      match files.filter (matchesLibName name ext) with
      | [] => findLibraryPath w name ext ds
      | c :: cs => some (w.abspath (pyJoin d (shortestCandidate c cs)))

/-- `autodetect_version` from `setup_configure.py`: locate a matching
library file under the candidate directories, load it, and read
`H5get_libversion`; with an expected version given (and not on Windows)
the result is checked with `assert`.  The Python set of directories is
iterated in an unspecified order; the model iterates the canonical
(lexicographic) order of its set representation. -/
def autodetect_version (w : World) (libdirs : List String) (name ext : String)
    (hdf5_version : Option String) : Except String String :=
  match findLibraryPath w name ext libdirs with
  | none => Except.error "UnboundLocalError: librarypath"
  | some path =>
    match w.lib_version path with
    | none => Except.error "OSError: cannot load library"
    | some (a, b, c) =>
      let version := toString a ++ "." ++ toString b ++ "." ++ toString c
      match hdf5_version with
      | some v =>
        if ¬ strStartsWith w.platform "win" && version ≠ v then
          Except.error "AssertionError"
        else Except.ok version
      | none => Except.ok version

/-- The built-in include-directory defaults (as a canonical set). -/
def fallback_include : List String := pySet ["/usr/local/include", "/opt/local/include"]

/-- The `re.sub` of `lib_to_include`: rewrite a trailing `lib`,
`lib<two digits>`, or `lib/<multiarch>` path component (each with an
optional trailing slash) into `include`; other paths are unchanged. -/
def replaceLibSuffix (multiarch d : String) : String :=
  let core := if strEndsWith d "/" then strDropRight d 1 else d
  if strEndsWith core ("lib/" ++ multiarch) then
    strDropRight core ("lib/" ++ multiarch).toList.length ++ "include"
  else if strEndsWith core "lib" then
    strDropRight core 3 ++ "include"
  else if core.toList.length ≥ 5 && strEndsWith (strDropRight core 2) "lib"
      && (strTakeRight core 2).toList.all Char.isDigit then
    strDropRight core 5 ++ "include"
  else d

/-- `lib_to_include` inside `autodetect_includedirs`: rewrite each
library directory into a candidate include directory and keep the ones
that exist. -/
def lib_to_include (w : World) (libs : List String) : List String :=
  (pySet (libs.map (replaceLibSuffix w.multiarch))).filter (fun d => w.isdir d)

/-- The directories found by walking `root` whose file list contains
`hdf5_hl.h`.  (The Python condition `'hdf5.h' and 'hdf5_hl.h' in files`
only tests `hdf5_hl.h`: the first operand is a non-empty string.) -/
def hlIncludeDirs (w : World) (root : String) : List String :=
  ((w.walk root).filter (fun t => t.2.2.contains "hdf5_hl.h")).map Prod.fst

/-- The `fallback_to_pkgconfig` helper inside `autodetect_includedirs`.
Note `pkgconfig.parse` returns a set; the model keeps the canonical
representation. -/
def fallback_to_pkgconfig (w : World) (fbInc : List String) (mpi : Option String) :
    List String :=
  match (hdf5_names_to_try mpi).find? w.pkg_exists with
  | some pkg =>
    if 0 < (pySet (w.pkg_include_dirs pkg)).length then pySet (w.pkg_include_dirs pkg)
    else fbInc
  | none => fbInc

/-- The directories found by the followlinks walk of the fixed search
roots whose file list contains `mpi.h` (as a canonical set). -/
def mpiHeaderDirs (w : World) : List String :=
  pySet ((["/include", "/usr/include", "/usr/local/include", "/opt/local/include"].flatMap
    (fun d => ((w.walkFollowLinks d).filter (fun t => t.2.2.contains "mpi.h")).map Prod.fst)))

/-- `autodetect_includedirs` from `setup_configure.py`.  An explicit
include directory wins, else the `include` subdirectory of an explicit
install directory, else (with `fallback` and known library directories)
a filesystem walk for `hdf5_hl.h`, else pkg-config.  With mpi enabled
the mpi4py include directory is added, and with `fallback` additionally
the mpi headers are searched (the condition `mpi == 'openmpi' or
'mpich'` is always truthy, so the substring filter by the mpi value is
always applied; the final `includedirs.union(mpi_include)` discards its
result, so the found directories are never added).  The numpy include
directory is always added, and everything passes through `realpath`. -/
def autodetect_includedirs (w : World) (hdf5_dir hdf5_includedir : Option String)
    (libdirs : Option (List String)) (mpi : Option String) (fallback : Bool) :
    Except String (List String) :=
  let base : List String :=
    match hdf5_includedir, hdf5_dir with
    | some d, _ => [d]
    | none, some dir => [pyJoin dir "include"]
    | none, none =>
      match fallback, libdirs with
      | true, some ld =>
        let search := pyUnion (pySet (lib_to_include w ld)) fallback_include
        let poss := pySet (search.flatMap (fun d => hlIncludeDirs w d))
        if 1 < poss.length then
          (if pyTruthyStr mpi then poss.filter (fun d => containsSub d "mpi")
           else poss.filter (fun d => !containsSub d "mpi"))
        else if poss.length = 1 then poss
        else fallback_include
      | _, _ => fallback_to_pkgconfig w fallback_include mpi
  do
    let withM ←
      (if pyTruthyStr mpi then
        match w.mpi4py_include with
        | some inc => Except.ok (pyInsert inc (pySet base))
        | none => Except.error "ImportError: mpi4py"
      else Except.ok (pySet base))
    let afterMpiH ←
      (if pyTruthyStr mpi && fallback then
        let found := (mpiHeaderDirs w).filter
          (fun p => containsSub p (mpi.getD ""))
        if found.length = 0 then
          Except.error "mpi.h not found, cannot build mpi-enabled h5py!"
        else
          Except.ok withM
      else Except.ok withM)
    match w.numpy_include with
    | some np => Except.ok (pySet ((pyInsert np afterMpiH).map w.realpath))
    | none => Except.error "ImportError: numpy"

/-- Add an element to a Python set of macro pairs (`set.add`): a no-op
when already present. -/
def addMacro (m : String × Option String) (l : List (String × Option String)) :
    List (String × Option String) :=
  if l.contains m then l else l ++ [m]

/-- `autodetect_define_macros` from `setup_configure.py`. -/
def autodetect_define_macros (w : World) (mpi : Option String) (fallback : Bool) :
    List (String × Option String) :=
  let dmacros : List (String × Option String) :=
    if ¬ fallback then
      match (hdf5_names_to_try mpi).find? w.pkg_exists with
      | some pkg => w.pkg_define_macros pkg
      | none => []
    else []
  let dmacros := addMacro ("H5_USE_16_API", none) dmacros
  if strStartsWith w.platform "win" then addMacro ("_HDF5USEDLL_", none) dmacros else dmacros

/-- The tuple returned by `autodetect_hdf5`. -/
structure VersionInfo where
  libdirs : List String
  includedirs : List String
  version : String
  libname : List String
  dmacros : List (String × Option String)
  deriving DecidableEq, Repr

/-- `autodetect_hdf5` from `setup_configure.py`: force `fallback` when
pkg-config is unavailable, then chain the individual detection
functions; any exception propagates.  The Python sets `libdirs` and
`includedirs` are returned through `list(...)` in an unspecified
iteration order; the model returns their canonical (lexicographically
sorted) representations. -/
def autodetect_hdf5 (w : World)
    (hdf5_dir hdf5_libdir hdf5_libname hdf5_includedir hdf5_version mpi : Option String)
    (fallback : Bool) : Except String VersionInfo :=
  let fb := if ¬ w.pkgconfig_available then true else fallback
  do
    let libdirs ← autodetect_libdirs w hdf5_dir hdf5_libdir mpi fb
    let ln ← autodetect_libname w hdf5_libname mpi fb
    let version ← autodetect_version w libdirs ln.2.1 ln.2.2 hdf5_version
    let includedirs ← autodetect_includedirs w hdf5_dir hdf5_includedir (some libdirs) mpi fb
    let dmacros := autodetect_define_macros w mpi fb
    Except.ok { libdirs := libdirs
                includedirs := includedirs
                version := version
                libname := ln.1
                dmacros := dmacros }

/-- The value of a public config attribute after `configure.run`: unset
(`None` left in place), a plain string, or a list of strings installed
by autodetection. -/
inductive ConfigVal where
  | undef : ConfigVal
  | str : String → ConfigVal
  | strList : List String → ConfigVal
  deriving DecidableEq, Repr

/-- Embed an optional string attribute value. -/
def ConfigVal.ofOpt : Option String → ConfigVal
  | none => ConfigVal.undef
  | some s => ConfigVal.str s

/-- The attribute values and stderr output produced by the autodetection
part of `configure.run` (the code after step 2). -/
structure AttrOut where
  libdir : ConfigVal
  libname : ConfigVal
  includedir : ConfigVal
  version : ConfigVal
  dmacros : Option (List (String × Option String))
  stderr : List String
  deriving DecidableEq

/-- The autodetection step of `configure.run`: when the resolved version
is still `None`, call `autodetect_hdf5` and install its results; any
exception is caught, a message is written to stderr, and the library
directory, include directory and version are set to `"???"` (the
resolved library name and the missing `hdf5_define_macros` attribute are
left as they were).  When the version was resolved, the resolved values
stand and `hdf5_define_macros` is never assigned. -/
def attrStep (w : World) (fallback : Bool) (r : Resolved) : AttrOut :=
  match r.hdf5_version with
  | some v =>
    { libdir := ConfigVal.ofOpt r.hdf5_libdir
      libname := ConfigVal.ofOpt r.hdf5_libname
      includedir := ConfigVal.ofOpt r.hdf5_includedir
      version := ConfigVal.str v
      dmacros := none
      stderr := [] }
  | none =>
    match autodetect_hdf5 w r.hdf5 r.hdf5_libdir r.hdf5_libname r.hdf5_includedir
        none r.mpi fallback with
    | Except.ok info =>
      { libdir := ConfigVal.strList info.libdirs
        libname := ConfigVal.strList info.libname
        includedir := ConfigVal.strList info.includedirs
        version := ConfigVal.str info.version
        dmacros := some info.dmacros
        stderr := [] }
    | Except.error e =>
      { libdir := ConfigVal.str "???"
        libname := ConfigVal.ofOpt r.hdf5_libname
        includedir := ConfigVal.str "???"
        version := ConfigVal.str "???"
        dmacros := none
        stderr := ["Autodetection skipped [" ++ e ++ "]"] }

/-- Everything observable about one invocation of `configure.run`: the
settings dict written back to the pickle file, the `rebuild_required`
attribute, the six public config attributes (plus define macros), and
the stderr output. -/
structure RunOutput where
  persisted : Settings
  rebuild_required : Bool
  hdf5 : Option String
  mpi : Option String
  hdf5_libdir : ConfigVal
  hdf5_libname : ConfigVal
  hdf5_includedir : ConfigVal
  hdf5_version : ConfigVal
  hdf5_define_macros : Option (List (String × Option String))
  stderr : List String
  deriving DecidableEq

/-- `configure.run` from `setup_configure.py`.  `cached` is the settings
dict currently in the pickle file (`loadpickle()`); the returned
`persisted` field is what `savepickle` writes back.  The environment
options object has already been constructed (and so the `HDF5_VERSION`
validation of `EnvironmentOptions.__init__` has already passed; see
`envOptionsInit`). -/
def configure_run (w : World) (cmd : CmdOptions) (env : EnvironmentOptions)
    (cached : Settings) : RunOutput :=
  let p := mergeStep cmd env cached
  let r := resolveAll cmd env (oldBase cmd cached)
  let a := attrStep w cmd.fallback r
  { persisted := p.1
    rebuild_required := p.2
    hdf5 := r.hdf5
    mpi := r.mpi
    hdf5_libdir := a.libdir
    hdf5_libname := a.libname
    hdf5_includedir := a.includedir
    hdf5_version := a.version
    hdf5_define_macros := a.dmacros
    stderr := a.stderr }

/-- `configure.reset_rebuild`: load the pickle, set `dct['rebuild'] =
False`, save it back. -/
def reset_rebuild (cached : Settings) : Settings :=
  { cached with rebuild := some false }

/-- The observable effects of `h5py_build_ext.run` from
`setup_build.py` that concern configuration: it runs the configure
command, rewrites `config.pxi` when the file is missing or a rebuild is
required, passes `force=config.rebuild_required or self.force` to
`cythonize`, and after the build marks the configuration as built via
`config.reset_rebuild()`. -/
structure BuildOutput where
  cythonize_force : Bool
  config_pxi_rewritten : Bool
  persisted_after : Settings
  deriving DecidableEq

/-- The configuration-related steps of `h5py_build_ext.run` (api_gen and
the C compilation itself are outside the configuration model). -/
def build_ext_run (w : World) (cmd : CmdOptions) (env : EnvironmentOptions)
    (cached : Settings) (self_force : Bool) (config_pxi_exists : Bool) : BuildOutput :=
  let out := configure_run w cmd env cached
  { cythonize_force := out.rebuild_required || self_force
    config_pxi_rewritten := !config_pxi_exists || out.rebuild_required
    persisted_after := reset_rebuild out.persisted }

/-- An environment with no relevant variables set. -/
def noEnv : EnvironmentOptions := {}

/-- A concrete Linux world in which every probe fails: no pkg-config
packages, a failing ldconfig block, unreadable directories, and no
loadable library.  Autodetection raises in this world (the candidate
loop of `autodetect_version` finds nothing and `librarypath` stays
unbound). -/
def probeFailWorld : World :=
  { platform := "linux"
    multiarch := ""
    pkgconfig_available := true
    realpath := id
    abspath := id
    isdir := fun _ => false
    listdir := fun _ => none
    walk := fun _ => []
    walkFollowLinks := fun _ => []
    pkg_exists := fun _ => false
    pkg_library_dirs := fun _ => []
    pkg_libraries := fun _ => []
    pkg_include_dirs := fun _ => []
    pkg_define_macros := fun _ => []
    ldconfig_dirs := Except.error "OSError"
    lib_version := fun _ => none
    mpi4py_include := none
    numpy_include := some "/numpy" }

/-- A concrete Linux world in which autodetection succeeds: no
pkg-config packages, but `/opt/local/lib` contains
`libhdf5_serial.so`, which reports version 1.8.4. -/
def serialWorld : World :=
  { probeFailWorld with
    listdir := fun d => if d = "/opt/local/lib" then some ["libhdf5_serial.so"] else none
    lib_version := fun p =>
      if p = "/opt/local/lib/libhdf5_serial.so" then some (1, 8, 4) else none }

/-- The `VersionInfo` that autodetection produces in `serialWorld` with
no explicit settings. -/
def serialInfo : VersionInfo :=
  { libdirs := ["/opt/local/lib", "/usr/local/lib"]
    includedirs := ["/numpy", "/opt/local/include", "/usr/local/include"]
    version := "1.8.4"
    libname := ["hdf5_serial", "hdf5_serial_hl"]
    dmacros := [("H5_USE_16_API", none)] }

section Lemmas

lemma updateIf_none (old : Option String) : updateIf none old = old := rfl

lemma updateIf_eq_none {v : Option String} : updateIf v none = none ↔ v = none := by
  cases v <;> simp [updateIf]

lemma overlay_rebuild (old : Settings) (cmd : CmdOptions) (env : EnvironmentOptions) :
    (overlaySettings old cmd env).rebuild = old.rebuild := rfl

lemma empty_rebuild : Settings.empty.rebuild = none := rfl

/-- No setting was supplied this round (all current command-line options
and environment variables are `None`). -/
def noneSupplied (cmd : CmdOptions) (env : EnvironmentOptions) : Prop :=
  cmd.hdf5 = none ∧ env.hdf5 = none ∧
  cmd.hdf5_libdir = none ∧ env.hdf5_libdir = none ∧
  cmd.hdf5_libname = none ∧ env.hdf5_libname = none ∧
  cmd.hdf5_includedir = none ∧ env.hdf5_includedir = none ∧
  cmd.hdf5_version = none ∧ env.hdf5_version = none ∧
  cmd.mpi = none ∧ env.mpi = none

lemma overlay_empty_eq_empty_iff (cmd : CmdOptions) (env : EnvironmentOptions) :
    overlaySettings Settings.empty cmd env = Settings.empty ↔ noneSupplied cmd env := by
  simp [overlaySettings, Settings.empty, Settings.mk.injEq, noneSupplied, updateIf_eq_none]

lemma overlay_of_noneSupplied {cmd : CmdOptions} {env : EnvironmentOptions}
    (h : noneSupplied cmd env) (cached : Settings) :
    overlaySettings cached cmd env = cached := by
  obtain ⟨h1, h2, h3, h4, h5, h6, h7, h8, h9, h10, h11, h12⟩ := h
  simp [overlaySettings, h1, h2, h3, h4, h5, h6, h7, h8, h9, h10, h11, h12, updateIf]

lemma anyTruthy_of_rebuild_true {s : Settings} (h : s.rebuild = some true) :
    s.anyTruthy = true := by
  simp [Settings.anyTruthy, h]

lemma mergeStep_fst_rebuild (cmd : CmdOptions) (env : EnvironmentOptions) (cached : Settings) :
    (mergeStep cmd env cached).1.rebuild = some (mergeStep cmd env cached).2 := rfl

lemma run_persisted (w : World) (cmd : CmdOptions) (env : EnvironmentOptions)
    (cached : Settings) :
    (configure_run w cmd env cached).persisted = (mergeStep cmd env cached).1 := rfl

lemma run_rebuild_required (w : World) (cmd : CmdOptions) (env : EnvironmentOptions)
    (cached : Settings) :
    (configure_run w cmd env cached).rebuild_required = (mergeStep cmd env cached).2 := rfl

lemma attrStep_some {r : Resolved} {v : String} (w : World) (fb : Bool)
    (hv : r.hdf5_version = some v) :
    attrStep w fb r =
      { libdir := ConfigVal.ofOpt r.hdf5_libdir
        libname := ConfigVal.ofOpt r.hdf5_libname
        includedir := ConfigVal.ofOpt r.hdf5_includedir
        version := ConfigVal.str v
        dmacros := none
        stderr := [] } := by
  unfold attrStep
  rw [hv]

lemma attrStep_ok {r : Resolved} {info : VersionInfo} (w : World) (fb : Bool)
    (hv : r.hdf5_version = none)
    (hok : autodetect_hdf5 w r.hdf5 r.hdf5_libdir r.hdf5_libname r.hdf5_includedir
      none r.mpi fb = Except.ok info) :
    attrStep w fb r =
      { libdir := ConfigVal.strList info.libdirs
        libname := ConfigVal.strList info.libname
        includedir := ConfigVal.strList info.includedirs
        version := ConfigVal.str info.version
        dmacros := some info.dmacros
        stderr := [] } := by
  unfold attrStep
  rw [hv, hok]

lemma attrStep_error {r : Resolved} {e : String} (w : World) (fb : Bool)
    (hv : r.hdf5_version = none)
    (he : autodetect_hdf5 w r.hdf5 r.hdf5_libdir r.hdf5_libname r.hdf5_includedir
      none r.mpi fb = Except.error e) :
    attrStep w fb r =
      { libdir := ConfigVal.str "???"
        libname := ConfigVal.ofOpt r.hdf5_libname
        includedir := ConfigVal.str "???"
        version := ConfigVal.str "???"
        dmacros := none
        stderr := ["Autodetection skipped [" ++ e ++ "]"] } := by
  unfold attrStep
  rw [hv, he]

end Lemmas

/-- Claim C2 (confirmed): for every run of the configure command, if the
settings mapping obtained by overlaying the values supplied this round
onto the previously cached mapping differs from the previously cached
mapping, then `rebuild_required` is true and the persisted `rebuild`
entry is written as true. -/
theorem c2_changed_settings_force_rebuild (w : World) (cmd : CmdOptions)
    (env : EnvironmentOptions) (cached : Settings)
    (h : overlaySettings cached cmd env ≠ cached) :
    (configure_run w cmd env cached).rebuild_required = true ∧
    (configure_run w cmd env cached).persisted.rebuild = some true := by
  have key : (mergeStep cmd env cached).2 = true := by
    cases hr : cmd.reset with
    | false => simp [mergeStep, oldBase, hr, h]
    | true =>
      cases ht : cached.anyTruthy with
      | true => simp [mergeStep, oldBase, hr, ht]
      | false =>
        have hne : ¬ overlaySettings Settings.empty cmd env = Settings.empty := by
          intro heq
          exact h (overlay_of_noneSupplied ((overlay_empty_eq_empty_iff cmd env).mp heq) cached)
        simp [mergeStep, oldBase, hr, ht, hne, overlay_rebuild, empty_rebuild]
  constructor
  · rw [run_rebuild_required, key]
  · rw [run_persisted, mergeStep_fst_rebuild, key]

/-- Witness for C2: supplying a new hdf5 directory over an empty cache
changes the mapping and forces a rebuild. -/
theorem c2_witness :
    (configure_run probeFailWorld { hdf5 := some "/x" } noEnv Settings.empty).rebuild_required = true ∧
    (configure_run probeFailWorld { hdf5 := some "/x" } noEnv Settings.empty).persisted.rebuild = some true :=
  c2_changed_settings_force_rebuild probeFailWorld { hdf5 := some "/x" } noEnv Settings.empty
    (by decide)

/-- Claim C3 (confirmed): once the cached `rebuild` flag is true, every
subsequent configure run keeps `rebuild_required` true and persists the
flag as true (even under `--reset`, since a true flag is a truthy
value); `reset_rebuild` writes the flag as false, and the custom
build_ext command forces `cythonize` while the flag is set and invokes
`reset_rebuild` after a successful build. -/
theorem c3_rebuild_flag_persistence (w : World) (cmd : CmdOptions)
    (env : EnvironmentOptions) (cached : Settings) (force pxi : Bool)
    (h : cached.rebuild = some true) :
    (configure_run w cmd env cached).rebuild_required = true ∧
    (configure_run w cmd env cached).persisted.rebuild = some true ∧
    (build_ext_run w cmd env cached force pxi).cythonize_force = true ∧
    (∀ s : Settings, (reset_rebuild s).rebuild = some false) ∧
    (build_ext_run w cmd env cached force pxi).persisted_after.rebuild = some false := by
  have key : (mergeStep cmd env cached).2 = true := by
    cases hr : cmd.reset with
    | true => simp [mergeStep, oldBase, hr, anyTruthy_of_rebuild_true h]
    | false => simp [mergeStep, oldBase, hr, overlay_rebuild, h]
  refine ⟨?_, ?_, ?_, fun s => rfl, ?_⟩
  · rw [run_rebuild_required, key]
  · rw [run_persisted, mergeStep_fst_rebuild, key]
  · show ((configure_run w cmd env cached).rebuild_required || force) = true
    rw [run_rebuild_required, key]
    exact Bool.true_or force
  · rfl

/-- Witness for C3: with the flag cached as true and nothing supplied,
the run keeps the flag and the build forces cythonize. -/
theorem c3_witness :
    (configure_run probeFailWorld {} noEnv { rebuild := some true }).rebuild_required = true ∧
    (configure_run probeFailWorld {} noEnv { rebuild := some true }).persisted.rebuild = some true ∧
    (build_ext_run probeFailWorld {} noEnv { rebuild := some true } false false).cythonize_force = true ∧
    (∀ s : Settings, (reset_rebuild s).rebuild = some false) ∧
    (build_ext_run probeFailWorld {} noEnv { rebuild := some true } false false).persisted_after.rebuild = some false :=
  c3_rebuild_flag_persistence probeFailWorld {} noEnv { rebuild := some true } false false rfl

/-- Claim C6 (confirmed): the configuration merge is deterministic.  The
persisted settings and the `rebuild_required` flag are a pure function
of the current command-line options, the environment options, and the
cached settings: they do not depend on the ambient world the
autodetection functions probe (and two runs of the model on equal
inputs are equal by definition). -/
theorem c6_merge_deterministic (w w' : World) (cmd : CmdOptions)
    (env : EnvironmentOptions) (cached : Settings) :
    (configure_run w cmd env cached).persisted = (configure_run w' cmd env cached).persisted ∧
    (configure_run w cmd env cached).rebuild_required = (configure_run w' cmd env cached).rebuild_required :=
  ⟨rfl, rfl⟩

/-- Claim C7 (confirmed): with an explicitly specified library directory
`autodetect_libdirs` returns exactly the singleton set of its resolved
real path, and with only an install directory specified it returns
exactly the singleton set of the resolved real path of that directory's
`lib` subdirectory — in every world, hence without consulting the
pkg-config or ldconfig probes. -/
theorem c7_libdirs_explicit (w : World) (dir mpi : Option String) (fb : Bool) (d dd : String) :
    autodetect_libdirs w dir (some d) mpi fb = Except.ok [w.realpath d] ∧
    autodetect_libdirs w (some dd) none mpi fb = Except.ok [w.realpath (pyJoin dd "lib")] :=
  ⟨rfl, rfl⟩

/-- Claim C10 (confirmed): under `--reset` the merge baseline is the
empty mapping: `rebuild_required` is exactly "some setting was supplied
this round, or the previously persisted mapping held a truthy value",
the persisted mapping is the overlay over the empty mapping plus the
flag, and when nothing is supplied the flag equals exactly the
truthy-value test of the old mapping (so a reset of an already-reset,
already-built configuration does not force a rebuild). -/
theorem c10_reset_semantics (w : World) (cmd : CmdOptions)
    (env : EnvironmentOptions) (cached : Settings) (h : cmd.reset = true) :
    ((configure_run w cmd env cached).rebuild_required =
      (decide (overlaySettings Settings.empty cmd env ≠ Settings.empty) || cached.anyTruthy)) ∧
    ((configure_run w cmd env cached).persisted =
      { overlaySettings Settings.empty cmd env with
          rebuild := some ((configure_run w cmd env cached).rebuild_required) }) ∧
    (overlaySettings Settings.empty cmd env = Settings.empty →
      (configure_run w cmd env cached).rebuild_required = cached.anyTruthy) := by
  have h1 : (mergeStep cmd env cached).2 =
      (decide (overlaySettings Settings.empty cmd env ≠ Settings.empty) || cached.anyTruthy) := by
    cases ht : cached.anyTruthy <;>
      simp [mergeStep, oldBase, h, ht, overlay_rebuild, empty_rebuild]
  refine ⟨?_, ?_, ?_⟩
  · rw [run_rebuild_required, h1]
  · rw [run_persisted, run_rebuild_required]
    simp [mergeStep, oldBase, h]
  · intro heq
    rw [run_rebuild_required, h1, heq]
    simp

/-- Witness for C10: resetting a cache that held a setting forces one
rebuild; resetting a cache holding only a false flag does not. -/
theorem c10_witness :
    ((configure_run probeFailWorld { reset := true } noEnv
        { cmd_hdf5 := some "/a", rebuild := some false }).rebuild_required =
      (decide (overlaySettings Settings.empty { reset := true } noEnv ≠ Settings.empty) ||
        Settings.anyTruthy { cmd_hdf5 := some "/a", rebuild := some false })) ∧
    (overlaySettings Settings.empty { reset := true } noEnv = Settings.empty →
      (configure_run probeFailWorld { reset := true } noEnv
        { cmd_hdf5 := some "/a", rebuild := some false }).rebuild_required =
      Settings.anyTruthy { cmd_hdf5 := some "/a", rebuild := some false }) := by
  have h := c10_reset_semantics probeFailWorld { reset := true } noEnv
    { cmd_hdf5 := some "/a", rebuild := some false } rfl
  exact ⟨h.1, h.2.2⟩

/-- Counterexample to claim C1 as stated: with the library directory
supplied on the command line but the version undefined in all four
tiers, the first defined value in priority order is the supplied
directory, yet the run resolves the library directory to `"???"`
(autodetection runs because the version is unset, fails in this world,
and overwrites the defined setting). -/
theorem c1_counterexample :
    resolveSetting (some "/custom/lib") none none none = some "/custom/lib" ∧
    (configure_run probeFailWorld { hdf5_libdir := some "/custom/lib" } noEnv
        Settings.empty).hdf5_libdir = ConfigVal.str "???" ∧
    ConfigVal.str "???" ≠ ConfigVal.str "/custom/lib" :=
  ⟨rfl, by decide, by decide⟩

/-- Claim C1 (amended): each setting's step-2 resolution picks the first
defined value in the order current command line, cached command line,
current environment, cached environment; this resolved value is the
run's final value for the hdf5 install directory and the mpi setting
always, and for the library directory, library name, include directory
and version exactly when the resolved version is defined — when the
version is undefined in all four tiers, autodetection runs and
overwrites those four attributes with its results (or `"???"` on
failure), even where they had defined values. -/
theorem c1_amended_priority_resolution (w : World) (cmd : CmdOptions)
    (env : EnvironmentOptions) (cached : Settings) :
    (∀ a b c d : Option String,
      resolveSetting a b c d = ([a, b, c, d].filterMap id).head?) ∧
    ((configure_run w cmd env cached).hdf5 =
      resolveSetting cmd.hdf5 (oldBase cmd cached).cmd_hdf5 env.hdf5
        (oldBase cmd cached).env_hdf5) ∧
    ((configure_run w cmd env cached).mpi =
      resolveSetting cmd.mpi (oldBase cmd cached).cmd_mpi env.mpi
        (oldBase cmd cached).env_mpi) ∧
    (∀ v, resolveSetting cmd.hdf5_version (oldBase cmd cached).cmd_hdf5_version
        env.hdf5_version (oldBase cmd cached).env_hdf5_version = some v →
      (configure_run w cmd env cached).hdf5_version = ConfigVal.str v ∧
      (configure_run w cmd env cached).hdf5_libdir = ConfigVal.ofOpt
        (resolveSetting cmd.hdf5_libdir (oldBase cmd cached).cmd_hdf5_libdir
          env.hdf5_libdir (oldBase cmd cached).env_hdf5_libdir) ∧
      (configure_run w cmd env cached).hdf5_libname = ConfigVal.ofOpt
        (resolveSetting cmd.hdf5_libname (oldBase cmd cached).cmd_hdf5_libname
          env.hdf5_libname (oldBase cmd cached).env_hdf5_libname) ∧
      (configure_run w cmd env cached).hdf5_includedir = ConfigVal.ofOpt
        (resolveSetting cmd.hdf5_includedir (oldBase cmd cached).cmd_hdf5_includedir
          env.hdf5_includedir (oldBase cmd cached).env_hdf5_includedir)) := by
  refine ⟨?_, rfl, rfl, ?_⟩
  · intro a b c d
    cases a <;> cases b <;> cases c <;> cases d <;> rfl
  · intro v hv
    have ha := attrStep_some (r := resolveAll cmd env (oldBase cmd cached)) w cmd.fallback hv
    refine ⟨?_, ?_, ?_, ?_⟩
    · show (attrStep w cmd.fallback (resolveAll cmd env (oldBase cmd cached))).version = _
      rw [ha]
    · show (attrStep w cmd.fallback (resolveAll cmd env (oldBase cmd cached))).libdir = _
      rw [ha]
      rfl
    · show (attrStep w cmd.fallback (resolveAll cmd env (oldBase cmd cached))).libname = _
      rw [ha]
      rfl
    · show (attrStep w cmd.fallback (resolveAll cmd env (oldBase cmd cached))).includedir = _
      rw [ha]
      rfl

/-- Witness for C1 (amended): with a supplied version the resolved
command-line library directory is final. -/
theorem c1_witness :
    (configure_run probeFailWorld { hdf5_version := some "1.8.4", hdf5_libdir := some "/L" }
        noEnv Settings.empty).hdf5_version = ConfigVal.str "1.8.4" ∧
    (configure_run probeFailWorld { hdf5_version := some "1.8.4", hdf5_libdir := some "/L" }
        noEnv Settings.empty).hdf5_libdir = ConfigVal.ofOpt
      (resolveSetting (some "/L")
        (oldBase { hdf5_version := some "1.8.4", hdf5_libdir := some "/L" } Settings.empty).cmd_hdf5_libdir
        noEnv.hdf5_libdir
        (oldBase { hdf5_version := some "1.8.4", hdf5_libdir := some "/L" } Settings.empty).env_hdf5_libdir) := by
  have h := c1_amended_priority_resolution probeFailWorld
    { hdf5_version := some "1.8.4", hdf5_libdir := some "/L" } noEnv Settings.empty
  exact ⟨(h.2.2.2 "1.8.4" rfl).1, (h.2.2.2 "1.8.4" rfl).2.1⟩

/-- Counterexample to claim C4 as stated: with the version supplied on
the command line and every other tier empty, the library directory is
still unset after the priority overlay, yet the run leaves it unset —
no autodetection fills it in, even in a world where autodetection would
succeed. -/
theorem c4_counterexample :
    (resolveAll { hdf5_version := some "1.8.4" } noEnv
      (oldBase { hdf5_version := some "1.8.4" } Settings.empty)).hdf5_libdir = none ∧
    (configure_run serialWorld { hdf5_version := some "1.8.4" } noEnv
      Settings.empty).hdf5_libdir = ConfigVal.undef :=
  ⟨rfl, by decide⟩

/-- Claim C4 (amended): autodetection is triggered exactly by the
version setting being unset after the priority overlay.  In that case
`autodetect_hdf5` — which probes filesystem paths, pkg-config metadata
and the loaded library's reported version — fills in the library
directory, include directory, version, library name and define macros
from its result; when the version is resolved from the four tiers, no
autodetection occurs and other still-unset settings remain unset. -/
theorem c4_amended_autodetect_trigger (w : World) (cmd : CmdOptions)
    (env : EnvironmentOptions) (cached : Settings) (info : VersionInfo)
    (hv : (resolveAll cmd env (oldBase cmd cached)).hdf5_version = none)
    (hok : autodetect_hdf5 w (resolveAll cmd env (oldBase cmd cached)).hdf5
      (resolveAll cmd env (oldBase cmd cached)).hdf5_libdir
      (resolveAll cmd env (oldBase cmd cached)).hdf5_libname
      (resolveAll cmd env (oldBase cmd cached)).hdf5_includedir
      none (resolveAll cmd env (oldBase cmd cached)).mpi cmd.fallback = Except.ok info) :
    (configure_run w cmd env cached).hdf5_libdir = ConfigVal.strList info.libdirs ∧
    (configure_run w cmd env cached).hdf5_includedir = ConfigVal.strList info.includedirs ∧
    (configure_run w cmd env cached).hdf5_version = ConfigVal.str info.version ∧
    (configure_run w cmd env cached).hdf5_libname = ConfigVal.strList info.libname ∧
    (configure_run w cmd env cached).hdf5_define_macros = some info.dmacros := by
  have ha := attrStep_ok (r := resolveAll cmd env (oldBase cmd cached)) w cmd.fallback hv hok
  refine ⟨?_, ?_, ?_, ?_, ?_⟩
  · show (attrStep w cmd.fallback (resolveAll cmd env (oldBase cmd cached))).libdir = _
    rw [ha]
  · show (attrStep w cmd.fallback (resolveAll cmd env (oldBase cmd cached))).includedir = _
    rw [ha]
  · show (attrStep w cmd.fallback (resolveAll cmd env (oldBase cmd cached))).version = _
    rw [ha]
  · show (attrStep w cmd.fallback (resolveAll cmd env (oldBase cmd cached))).libname = _
    rw [ha]
  · show (attrStep w cmd.fallback (resolveAll cmd env (oldBase cmd cached))).dmacros = _
    rw [ha]

/-- Witness for C4 (amended): in `serialWorld`, with nothing supplied,
autodetection fills in every attribute. -/
theorem c4_witness :
    (configure_run serialWorld {} noEnv Settings.empty).hdf5_libdir =
      ConfigVal.strList serialInfo.libdirs ∧
    (configure_run serialWorld {} noEnv Settings.empty).hdf5_version =
      ConfigVal.str serialInfo.version := by
  have h := c4_amended_autodetect_trigger serialWorld {} noEnv Settings.empty serialInfo
    rfl (by decide)
  exact ⟨h.1, h.2.2.1⟩

/-- Claim C8 (confirmed): when autodetection raises, `configure.run`
catches the exception, writes a message to stderr, sets the library
directory, include directory and version to `"???"`, and still returns
a normal result (the model's `configure_run` is a total function). -/
theorem c8_autodetect_exception_handling (w : World) (cmd : CmdOptions)
    (env : EnvironmentOptions) (cached : Settings) (e : String)
    (hv : (resolveAll cmd env (oldBase cmd cached)).hdf5_version = none)
    (he : autodetect_hdf5 w (resolveAll cmd env (oldBase cmd cached)).hdf5
      (resolveAll cmd env (oldBase cmd cached)).hdf5_libdir
      (resolveAll cmd env (oldBase cmd cached)).hdf5_libname
      (resolveAll cmd env (oldBase cmd cached)).hdf5_includedir
      none (resolveAll cmd env (oldBase cmd cached)).mpi cmd.fallback = Except.error e) :
    (configure_run w cmd env cached).stderr = ["Autodetection skipped [" ++ e ++ "]"] ∧
    (configure_run w cmd env cached).hdf5_libdir = ConfigVal.str "???" ∧
    (configure_run w cmd env cached).hdf5_includedir = ConfigVal.str "???" ∧
    (configure_run w cmd env cached).hdf5_version = ConfigVal.str "???" := by
  have ha := attrStep_error (r := resolveAll cmd env (oldBase cmd cached)) w cmd.fallback hv he
  refine ⟨?_, ?_, ?_, ?_⟩
  · show (attrStep w cmd.fallback (resolveAll cmd env (oldBase cmd cached))).stderr = _
    rw [ha]
  · show (attrStep w cmd.fallback (resolveAll cmd env (oldBase cmd cached))).libdir = _
    rw [ha]
  · show (attrStep w cmd.fallback (resolveAll cmd env (oldBase cmd cached))).includedir = _
    rw [ha]
  · show (attrStep w cmd.fallback (resolveAll cmd env (oldBase cmd cached))).version = _
    rw [ha]

/-- Witness for C8: in the world where every probe fails, the candidate
loop leaves `librarypath` unbound and the run degrades to `"???"`. -/
theorem c8_witness :
    (configure_run probeFailWorld {} noEnv Settings.empty).stderr =
      ["Autodetection skipped [" ++ "UnboundLocalError: librarypath" ++ "]"] ∧
    (configure_run probeFailWorld {} noEnv Settings.empty).hdf5_libdir = ConfigVal.str "???" ∧
    (configure_run probeFailWorld {} noEnv Settings.empty).hdf5_includedir = ConfigVal.str "???" ∧
    (configure_run probeFailWorld {} noEnv Settings.empty).hdf5_version = ConfigVal.str "???" :=
  c8_autodetect_exception_handling probeFailWorld {} noEnv Settings.empty
    "UnboundLocalError: librarypath" rfl (by decide)

/-- Claim C5 (confirmed): for a run without `--reset`, every setting
supplied this round is written to the persisted mapping under its own
key, and every cached setting entry whose setting was not supplied this
round is carried over unchanged. -/
theorem c5_frame_overlay (w : World) (cmd : CmdOptions)
    (env : EnvironmentOptions) (cached : Settings) (h : cmd.reset = false) :
    (∀ v, cmd.hdf5 = some v →
      (configure_run w cmd env cached).persisted.cmd_hdf5 = some v) ∧
    (cmd.hdf5 = none →
      (configure_run w cmd env cached).persisted.cmd_hdf5 = cached.cmd_hdf5) ∧
    (∀ v, env.hdf5 = some v →
      (configure_run w cmd env cached).persisted.env_hdf5 = some v) ∧
    (env.hdf5 = none →
      (configure_run w cmd env cached).persisted.env_hdf5 = cached.env_hdf5) ∧
    (∀ v, cmd.hdf5_libdir = some v →
      (configure_run w cmd env cached).persisted.cmd_hdf5_libdir = some v) ∧
    (cmd.hdf5_libdir = none →
      (configure_run w cmd env cached).persisted.cmd_hdf5_libdir = cached.cmd_hdf5_libdir) ∧
    (∀ v, env.hdf5_libdir = some v →
      (configure_run w cmd env cached).persisted.env_hdf5_libdir = some v) ∧
    (env.hdf5_libdir = none →
      (configure_run w cmd env cached).persisted.env_hdf5_libdir = cached.env_hdf5_libdir) ∧
    (∀ v, cmd.hdf5_libname = some v →
      (configure_run w cmd env cached).persisted.cmd_hdf5_libname = some v) ∧
    (cmd.hdf5_libname = none →
      (configure_run w cmd env cached).persisted.cmd_hdf5_libname = cached.cmd_hdf5_libname) ∧
    (∀ v, env.hdf5_libname = some v →
      (configure_run w cmd env cached).persisted.env_hdf5_libname = some v) ∧
    (env.hdf5_libname = none →
      (configure_run w cmd env cached).persisted.env_hdf5_libname = cached.env_hdf5_libname) ∧
    (∀ v, cmd.hdf5_includedir = some v →
      (configure_run w cmd env cached).persisted.cmd_hdf5_includedir = some v) ∧
    (cmd.hdf5_includedir = none →
      (configure_run w cmd env cached).persisted.cmd_hdf5_includedir = cached.cmd_hdf5_includedir) ∧
    (∀ v, env.hdf5_includedir = some v →
      (configure_run w cmd env cached).persisted.env_hdf5_includedir = some v) ∧
    (env.hdf5_includedir = none →
      (configure_run w cmd env cached).persisted.env_hdf5_includedir = cached.env_hdf5_includedir) ∧
    (∀ v, cmd.hdf5_version = some v →
      (configure_run w cmd env cached).persisted.cmd_hdf5_version = some v) ∧
    (cmd.hdf5_version = none →
      (configure_run w cmd env cached).persisted.cmd_hdf5_version = cached.cmd_hdf5_version) ∧
    (∀ v, env.hdf5_version = some v →
      (configure_run w cmd env cached).persisted.env_hdf5_version = some v) ∧
    (env.hdf5_version = none →
      (configure_run w cmd env cached).persisted.env_hdf5_version = cached.env_hdf5_version) ∧
    (∀ v, cmd.mpi = some v →
      (configure_run w cmd env cached).persisted.cmd_mpi = some v) ∧
    (cmd.mpi = none →
      (configure_run w cmd env cached).persisted.cmd_mpi = cached.cmd_mpi) ∧
    (∀ v, env.mpi = some v →
      (configure_run w cmd env cached).persisted.env_mpi = some v) ∧
    (env.mpi = none →
      (configure_run w cmd env cached).persisted.env_mpi = cached.env_mpi) := by
  have hold : oldBase cmd cached = cached := by simp [oldBase, h]
  refine ⟨fun v hv => ?_, fun hn => ?_, fun v hv => ?_, fun hn => ?_,
          fun v hv => ?_, fun hn => ?_, fun v hv => ?_, fun hn => ?_,
          fun v hv => ?_, fun hn => ?_, fun v hv => ?_, fun hn => ?_,
          fun v hv => ?_, fun hn => ?_, fun v hv => ?_, fun hn => ?_,
          fun v hv => ?_, fun hn => ?_, fun v hv => ?_, fun hn => ?_,
          fun v hv => ?_, fun hn => ?_, fun v hv => ?_, fun hn => ?_⟩ <;>
    rw [run_persisted] <;>
    simp [mergeStep, hold, overlaySettings, updateIf, *]

/-- Witness for C5: a supplied command-line hdf5 directory lands under
`cmd_hdf5`, and an untouched cached `env_mpi` entry is carried over. -/
theorem c5_witness :
    (configure_run probeFailWorld { hdf5 := some "/newdir" } noEnv
      { env_mpi := some "1" }).persisted.cmd_hdf5 = some "/newdir" ∧
    (configure_run probeFailWorld { hdf5 := some "/newdir" } noEnv
      { env_mpi := some "1" }).persisted.env_mpi = some "1" := by
  have h := c5_frame_overlay probeFailWorld { hdf5 := some "/newdir" } noEnv
    { env_mpi := some "1" } rfl
  exact ⟨h.1 "/newdir" rfl, h.2.2.2.2.2.2.2.2.2.2.2.2.2.2.2.2.2.2.2.2.2.2.2 rfl⟩

/-- The property claim C9 states `validate_version` checks: the string
splits on `'.'` into exactly three components, each accepted by
Python's `int` (which the model renders with `pyInt`: optional sign and
whitespace, decimal digits, underscore rule). -/
def threeDotIntComponents (s : String) : Prop :=
  (s.splitOn ".").length = 3 ∧ ∀ p ∈ s.splitOn ".", (pyInt p).isSome = true

lemma tupleOfInts_isSome_of {l : List String}
    (h : ∀ p ∈ l, (pyInt p).isSome = true) : (tupleOfInts l).isSome = true := by
  induction l with
  | nil => rfl
  | cons x xs ih =>
    have hx := h x (by simp)
    have hxs := ih (fun p hp => h p (by simp [hp]))
    obtain ⟨v, hv⟩ := Option.isSome_iff_exists.mp hx
    obtain ⟨vs, hvs⟩ := Option.isSome_iff_exists.mp hxs
    simp [tupleOfInts, hv, hvs]

lemma mem_of_tupleOfInts_isSome {l : List String}
    (h : (tupleOfInts l).isSome = true) : ∀ p ∈ l, (pyInt p).isSome = true := by
  induction l with
  | nil => simp
  | cons x xs ih =>
    intro p hp
    cases hx : pyInt x with
    | none => simp [tupleOfInts, hx] at h
    | some v =>
      cases hxs : tupleOfInts xs with
      | none => simp [tupleOfInts, hx, hxs] at h
      | some vs =>
        rcases List.mem_cons.mp hp with rfl | hp2
        · simp [hx]
        · exact ih (by simp [hxs]) p hp2

lemma tupleOfInts_length :
    ∀ (l : List String) (t : List Int), tupleOfInts l = some t → t.length = l.length
  | [], t, h => by
    simp only [tupleOfInts, Option.some.injEq] at h
    simp [← h]
  | x :: xs, t, h => by
    cases hx : pyInt x with
    | none => simp [tupleOfInts, hx] at h
    | some v =>
      cases hxs : tupleOfInts xs with
      | none => simp [tupleOfInts, hx, hxs] at h
      | some vs =>
        simp only [tupleOfInts, hx, hxs, Option.some.injEq] at h
        have := tupleOfInts_length xs vs hxs
        simp [← h, this]

lemma validate_version_error_iff (s : String) :
    (∃ m, validate_version s = Except.error m) ↔ ¬ threeDotIntComponents s := by
  unfold validate_version threeDotIntComponents
  cases ht : tupleOfInts (s.splitOn ".") with
  | none =>
    constructor
    · rintro ⟨m, _⟩ hc
      have hsome := tupleOfInts_isSome_of hc.2
      rw [ht] at hsome
      simp at hsome
    · intro _
      exact ⟨_, rfl⟩
  | some t =>
    have hlen := tupleOfInts_length (s.splitOn ".") t ht
    by_cases hl : t.length = 3
    · constructor
      · rintro ⟨m, hm⟩
        simp [hl] at hm
      · intro hc
        exact absurd ⟨by rw [← hlen]; exact hl,
          mem_of_tupleOfInts_isSome (by rw [ht]; rfl)⟩ hc
    · constructor
      · rintro ⟨m, hm⟩ hc
        exact hl (by rw [hlen]; exact hc.1)
      · intro _
        refine ⟨"HDF5 version string must be in X.Y.Z format", ?_⟩
        simp [hl]

/-- Claim C9 (confirmed): `validate_version` raises `ValueError` exactly
when its argument is not a string of three dot-separated integer
components (integer meaning a string Python's `int` accepts), and the
check is applied to the `--hdf5-version` command-line option in
`finalize_options` and to the `HDF5_VERSION` environment variable when
`EnvironmentOptions` is constructed. -/
theorem c9_validate_version_sites :
    (∀ s, (∃ m, validate_version s = Except.error m) ↔ ¬ threeDotIntComponents s) ∧
    (∀ cmd : CmdOptions, (∃ m, finalize_options cmd = Except.error m) ↔
      ∃ v, cmd.hdf5_version = some v ∧ ¬ threeDotIntComponents v) ∧
    (∀ e : EnvVars, (∃ m, envOptionsInit e = Except.error m) ↔
      ∃ v, e.HDF5_VERSION = some v ∧ ¬ threeDotIntComponents v) := by
  refine ⟨validate_version_error_iff, ?_, ?_⟩
  · intro cmd
    cases hv : cmd.hdf5_version with
    | none => simp [finalize_options, hv]
    | some v =>
      simp only [finalize_options, hv, Option.some.injEq]
      rw [validate_version_error_iff v]
      constructor
      · intro hx
        exact ⟨v, rfl, hx⟩
      · rintro ⟨v', rfl, hx⟩
        exact hx
  · intro e
    cases hv : e.HDF5_VERSION with
    | none => simp [envOptionsInit, hv]
    | some v =>
      simp only [envOptionsInit, hv]
      cases hval : validate_version v with
      | error m =>
        constructor
        · intro _
          exact ⟨v, rfl, (validate_version_error_iff v).mp ⟨m, hval⟩⟩
        · intro _
          exact ⟨m, rfl⟩
      | ok u =>
        cases u
        have h3 : threeDotIntComponents v := by
          by_contra hc
          obtain ⟨m, hm⟩ := (validate_version_error_iff v).mpr hc
          rw [hval] at hm
          exact Except.noConfusion hm
        constructor
        · rintro ⟨m', hm'⟩
          exact Except.noConfusion hm'
        · rintro ⟨v', hv', hth⟩
          have hvv : v = v' := by injection hv'
          rw [← hvv] at hth
          exact absurd h3 hth

end H5py
